import Mathlib

/-!
Verification of the grid codec in `geotiff_to_gsb.py`: conversion of a
geotiff geoid-separation raster (optionally with two deflection-of-vertical
companion rasters) into NTv2 `gsb`/`asc` or WINTER encodings.

Shallow embedding conventions:
* Python floats are modelled as exact rationals `ℚ`; a float that may be
  NaN (raster sample values, the null sentinel) is an `Option ℚ` with
  `none` standing for NaN.  Infinities do not arise in this program.
* Python `round(x)` / `round(x, p)` rounds to nearest with ties to even,
  embedded as `roundHalfEven` / `pyroundAt` on `ℚ`.
* External collaborators (gdal raster access, the geodepy `dec2dms`
  conversion, text/byte framing of the output files) stay outside the
  model: encoders are embedded down to the numeric / string field values
  they emit, which is what the claims are about.
-/

namespace GeoTiff

/-- A Python float that may be NaN: `none` is NaN, `some q` a finite value. -/
abbrev FVal := Option ℚ

/-- `math.isnan` on the NaN-aware float model. -/
def isnan (v : FVal) : Bool := v.isNone

/-- `check_nan(in_val, nan_val)` from the source: return `nan_val` if
`in_val` is NaN, else return `in_val` unchanged. -/
def check_nan (in_val nan_val : FVal) : FVal :=
  if isnan in_val then nan_val else in_val

/-- Python `abs` on a float. -/
def absQ (q : ℚ) : ℚ := if q < 0 then -q else q

/-- Python `round(q)`: nearest integer, ties to even (banker's rounding). -/
def roundHalfEven (q : ℚ) : ℤ :=
  if q < ⌊q⌋ + 1/2 then ⌊q⌋
  else if (⌊q⌋ : ℚ) + 1/2 < q then ⌊q⌋ + 1
  else if ⌊q⌋ % 2 = 0 then ⌊q⌋ else ⌊q⌋ + 1

/-- Python `round(q, 0)`, which returns a float. -/
def pyround (q : ℚ) : ℚ := (roundHalfEven q : ℚ)

/-- Python `round(x, p)` for a non-negative number of decimal places. -/
def pyroundAt (x : ℚ) (p : ℕ) : ℚ := (roundHalfEven (x * 10 ^ p) : ℚ) / 10 ^ p

/-- A geodepy `DMSAngle`: hemisphere flag, degrees, minutes (integers) and
seconds (float).  Only the fields `check_rounding` touches are modelled. -/
structure DMSAngle where
  positive : Bool
  degree : ℤ
  minute : ℤ
  second : ℚ
deriving DecidableEq, Repr

/-- `check_rounding(dms_angle, precision)` from the source, as a pure
function returning the updated angle: if the seconds, rounded to
`precision` places, are within `10**-precision` of 60.0, zero the seconds
and carry into minutes; a minute count reaching 60 carries into degrees;
a degree count reaching 360 wraps to 0. -/
def check_rounding (a : DMSAngle) (precision : ℕ) : DMSAngle :=
  if absQ (pyroundAt a.second precision - 60) < (10 : ℚ) ^ (-(precision : ℤ)) then
    let a1 : DMSAngle := { a with second := 0, minute := a.minute + 1 }
    if 60 ≤ a1.minute then
      let a2 : DMSAngle := { a1 with minute := a1.minute - 60, degree := a1.degree + 1 }
      if 360 ≤ a2.degree then { a2 with degree := a2.degree - 360 } else a2
    else a1
  else a

/-- A gdal affine geotransform `(x_ul, x_int, x_rot, y_ul, y_rot, y_int)`,
the 6-tuple unpacked at line 177 of the source. -/
structure GeoTransform where
  x_ul : ℚ
  x_int : ℚ
  x_rot : ℚ
  y_ul : ℚ
  y_rot : ℚ
  y_int : ℚ
deriving DecidableEq, Repr

/-- The geotransform as the Python 6-tuple (for the companion-grid
validation loop, which iterates and indexes the tuple). -/
def GeoTransform.toList (g : GeoTransform) : List ℚ :=
  [g.x_ul, g.x_int, g.x_rot, g.y_ul, g.y_rot, g.y_int]

/-- The grid extent quantities computed at lines 179-185 of the source. -/
structure GridExtent where
  lat_inc : ℚ
  lon_inc : ℚ
  n_lat : ℚ
  s_lat : ℚ
  e_lon : ℚ
  w_lon : ℚ
  gs_count : ℤ
deriving DecidableEq, Repr

/-- Extent computation from the source:
`lat_inc = round(abs(y_int)*3600, 0)`, `lon_inc = round(x_int*3600, 0)`,
`n_lat = round(y_ul, 0)*3600`, `s_lat = y_ul*3600 - (H-1)*lat_inc`,
`e_lon = -x_ul*3600 - (W-1)*lon_inc`, `w_lon = -x_ul*3600`,
`gs_count = W*H`. -/
def computeExtent (g : GeoTransform) (W H : ℕ) : GridExtent :=
  let lat_inc := pyround (absQ g.y_int * 3600)
  let lon_inc := pyround (g.x_int * 3600)
  { lat_inc := lat_inc
    lon_inc := lon_inc
    n_lat := pyround g.y_ul * 3600
    s_lat := g.y_ul * 3600 - ((H : ℚ) - 1) * lat_inc
    e_lon := -g.x_ul * 3600 - ((W : ℚ) - 1) * lon_inc
    w_lon := -g.x_ul * 3600
    gs_count := (W : ℤ) * (H : ℤ) }

/-- `match_precision = 0.00000000001` from line 155 of the source. -/
def matchPrecision : ℚ := 1 / 100000000000

/-- One entry of the `grid_mismatch` report list: the two file names, the
reported component index and the two component values (the content of the
`mismatch_str` f-string). -/
structure MismatchEntry where
  file1 : String
  file2 : String
  index : ℕ
  v1 : ℚ
  v2 : ℚ
deriving DecidableEq, Repr

/-- Python `list.index(x)`: the position of the first occurrence of the
value `x` (in this script always called with `x` drawn from the list, so
the Python `ValueError` case never arises). -/
def pyIndex (l : List ℚ) (x : ℚ) : ℕ :=
  match l with
  | [] => 0
  | a :: t => if a = x then 0 else pyIndex t x + 1

/-- Python `l[i]` on a float list (in this script `i` is always in range,
so the Python `IndexError` case never arises). -/
def pyGet (l : List ℚ) (i : ℕ) : ℚ :=
  match l, i with
  | [], _ => 0
  | a :: _, 0 => a
  | _ :: t, j + 1 => pyGet t j

/-- The companion-grid validation loop (source lines 156-165): for each
value `i` of the primary geotransform tuple, the companion tuples are
probed at `gt_n_extents.index(i)` — the index of the *first occurrence of
the value `i`* — and an entry is appended for each probe differing by more
than `match_precision`. -/
def gridMismatch (nName pmName pvName : String) (n pm pv : List ℚ) :
    List MismatchEntry :=
  n.flatMap (fun i =>
    (if absQ (i - pyGet pm (pyIndex n i)) > matchPrecision then
      [⟨nName, pmName, pyIndex n i, i, pyGet pm (pyIndex n i)⟩] else [])
    ++
    (if absQ (i - pyGet pv (pyIndex n i)) > matchPrecision then
      [⟨nName, pvName, pyIndex n i, i, pyGet pv (pyIndex n i)⟩] else []))

/-- The run configuration: the module-level constants of lines 32-47 of the
source.  The ellipsoid axes are doubles taken from the external geodepy
GRS80 object; their values are irrelevant to the claims. -/
structure Config where
  num_orec : ℤ
  num_srec : ℤ
  num_file : ℤ
  gs_type : String
  version : String
  system_f : String
  system_t : String
  major_f : ℚ
  major_t : ℚ
  minor_f : ℚ
  minor_t : ℚ
  sub_name : String
  parent : String
  created : String
  updated : String
  null_node_val : FVal
deriving DecidableEq, Repr

/-- A header field value: integer, string or double, before text or byte
framing. -/
inductive HVal where
  | int (n : ℤ)
  | str (s : String)
  | flt (q : ℚ)
deriving DecidableEq, Repr

/-- The four numeric channels written for one node by the asc and gsb
encoders. -/
structure NodeRec where
  n : FVal
  pm : FVal
  pv : FVal
  fourth : FVal
deriving DecidableEq, Repr

/-- Python `range(k - 1, -1, -1)`: the indices `k-1, k-2, ..., 0`. -/
def revRange (k : ℕ) : List ℕ := (List.range k).reverse

/-- The `(y, x)` cell order of the asc and gsb node loops (source lines
248-249 and 295-296): `for y in range(H-1, -1, -1): for x in
range(W-1, -1, -1)`. -/
def ascGsbCells (W H : ℕ) : List (ℕ × ℕ) :=
  (revRange H).flatMap (fun y => (revRange W).map (fun x => (y, x)))

/-- The `(y, x)` cell order of the winter node loop (source lines 324-329):
`for y in range(0, H): for x in range(0, W)`. -/
def winterCells (W H : ℕ) : List (ℕ × ℕ) :=
  (List.range H).flatMap (fun y => (List.range W).map (fun x => (y, x)))

/-- The node record written by the asc encoder for cell `(y, x)` (source
lines 250-256): the primary value and, with companion grids, both
deflection values are passed through `check_nan`; absent channels and the
fourth channel are the null sentinel. -/
def ascNode (cfg : Config) (dov : Bool) (vn vpm vpv : ℕ → ℕ → FVal)
    (y x : ℕ) : NodeRec :=
  let n_val := check_nan (vn y x) cfg.null_node_val
  if dov then
    { n := n_val
      pm := check_nan (vpm y x) cfg.null_node_val
      pv := check_nan (vpv y x) cfg.null_node_val
      fourth := cfg.null_node_val }
  else
    { n := n_val
      pm := cfg.null_node_val
      pv := cfg.null_node_val
      fourth := cfg.null_node_val }

/-- The node record written by the gsb encoder for cell `(y, x)` (source
lines 297-310), including its redundant second NaN test on the already
sanitized primary value. -/
def gsbNode (cfg : Config) (dov : Bool) (vn vpm vpv : ℕ → ℕ → FVal)
    (y x : ℕ) : NodeRec :=
  let n0 := check_nan (vn y x) cfg.null_node_val
  let n_val := if isnan n0 then cfg.null_node_val else n0
  if dov then
    { n := n_val
      pm := check_nan (vpm y x) cfg.null_node_val
      pv := check_nan (vpv y x) cfg.null_node_val
      fourth := cfg.null_node_val }
  else
    { n := n_val
      pm := cfg.null_node_val
      pv := cfg.null_node_val
      fourth := cfg.null_node_val }

/-- The field values of one encoded output: the 11 overview header fields,
the 11 sub-grid header fields, and the node records in emission order.
Text/byte framing (padding, `%16.6f` rendering, struct packing) is outside
the value model. -/
structure EncodedValues where
  overview : List (String × HVal)
  subgrid : List (String × HVal)
  nodes : List NodeRec
deriving DecidableEq, Repr

/-- The asc encoder branch (source lines 215-258), down to field values:
string fields are emitted as configured (the `:>8s` formatting pads but
never truncates). -/
def ascEncode (cfg : Config) (ext : GridExtent) (W H : ℕ) (dov : Bool)
    (vn vpm vpv : ℕ → ℕ → FVal) : EncodedValues :=
  { overview := [
      ("NUM_OREC", .int cfg.num_orec),
      ("NUM_SREC", .int cfg.num_srec),
      ("NUM_FILE", .int cfg.num_file),
      ("GS_TYPE ", .str cfg.gs_type),
      ("VERSION ", .str cfg.version),
      ("SYSTEM_F", .str cfg.system_f),
      ("SYSTEM_T", .str cfg.system_t),
      ("MAJOR_F ", .flt cfg.major_f),
      ("MINOR_F ", .flt cfg.minor_f),
      ("MAJOR_T ", .flt cfg.major_t),
      ("MINOR_T ", .flt cfg.minor_t)]
    subgrid := [
      ("SUB_NAME", .str cfg.sub_name),
      ("PARENT  ", .str cfg.parent),
      ("CREATED ", .str cfg.created),
      ("UPDATED ", .str cfg.updated),
      ("S_LAT   ", .flt ext.s_lat),
      ("N_LAT   ", .flt ext.n_lat),
      ("E_LONG  ", .flt ext.e_lon),
      ("W_LONG  ", .flt ext.w_lon),
      ("LAT_INC ", .flt ext.lat_inc),
      ("LONG_INC", .flt ext.lon_inc),
      ("GS_COUNT", .int ext.gs_count)]
    nodes := (ascGsbCells W H).map (fun c => ascNode cfg dov vn vpm vpv c.1 c.2) }

/-- The gsb encoder branch (source lines 260-316), down to field values:
every string field is sliced to its first 8 characters (`gs_type[:8]` etc.)
before packing. -/
def gsbEncode (cfg : Config) (ext : GridExtent) (W H : ℕ) (dov : Bool)
    (vn vpm vpv : ℕ → ℕ → FVal) : EncodedValues :=
  { overview := [
      ("NUM_OREC", .int cfg.num_orec),
      ("NUM_SREC", .int cfg.num_srec),
      ("NUM_FILE", .int cfg.num_file),
      ("GS_TYPE ", .str (cfg.gs_type.take 8)),
      ("VERSION ", .str (cfg.version.take 8)),
      ("SYSTEM_F", .str (cfg.system_f.take 8)),
      ("SYSTEM_T", .str (cfg.system_t.take 8)),
      ("MAJOR_F ", .flt cfg.major_f),
      ("MINOR_F ", .flt cfg.minor_f),
      ("MAJOR_T ", .flt cfg.major_t),
      ("MINOR_T ", .flt cfg.minor_t)]
    subgrid := [
      ("SUB_NAME", .str (cfg.sub_name.take 8)),
      ("PARENT  ", .str (cfg.parent.take 8)),
      ("CREATED ", .str (cfg.created.take 8)),
      ("UPDATED ", .str (cfg.updated.take 8)),
      ("S_LAT   ", .flt ext.s_lat),
      ("N_LAT   ", .flt ext.n_lat),
      ("E_LONG  ", .flt ext.e_lon),
      ("W_LONG  ", .flt ext.w_lon),
      ("LAT_INC ", .flt ext.lat_inc),
      ("LONG_INC", .flt ext.lon_inc),
      ("GS_COUNT", .int ext.gs_count)]
    nodes := (ascGsbCells W H).map (fun c => gsbNode cfg dov vn vpm vpv c.1 c.2) }

/-- One line of the winter encoder's node output, down to values: the
decimal-degree latitude/longitude handed to the external geodepy `dec2dms`
(whose DMS formatting is outside the model) and the three sanitized
channels. -/
structure WinterNode where
  latDec : ℚ
  lonDec : ℚ
  n : FVal
  pm : FVal
  pv : FVal
deriving DecidableEq, Repr

/-- The winter node for cell `(y, x)` (source lines 324-342):
`lat = y_ul + y*y_int`, `lon = x_ul + x*x_int`, channels sanitized with
`check_nan`, absent deflection channels replaced by the null sentinel. -/
def winterNode (cfg : Config) (g : GeoTransform) (dov : Bool)
    (vn vpm vpv : ℕ → ℕ → FVal) (y x : ℕ) : WinterNode :=
  { latDec := g.y_ul + (y : ℚ) * g.y_int
    lonDec := g.x_ul + (x : ℚ) * g.x_int
    n := check_nan (vn y x) cfg.null_node_val
    pm := if dov then check_nan (vpm y x) cfg.null_node_val else cfg.null_node_val
    pv := if dov then check_nan (vpv y x) cfg.null_node_val else cfg.null_node_val }

/-- The winter encoder branch (source lines 318-342), down to values. -/
def winterEncode (cfg : Config) (g : GeoTransform) (W H : ℕ) (dov : Bool)
    (vn vpm vpv : ℕ → ℕ → FVal) : List WinterNode :=
  (winterCells W H).map (fun c => winterNode cfg g dov vn vpm vpv c.1 c.2)

/-- One input raster: name, dimensions, geotransform and band values
(supplied by the external raster-access service). -/
structure RasterInput where
  name : String
  W : ℕ
  H : ℕ
  gt : GeoTransform
  values : ℕ → ℕ → FVal

/-- The full conversion input: the primary raster and, optionally, the two
deflection-of-vertical companion rasters. -/
structure ConversionInput where
  primary : RasterInput
  dov : Option (RasterInput × RasterInput)

/-- The output format selector (`output_type` in the source). -/
inductive OutputFormat where
  | asc
  | gsb
  | winter
deriving DecidableEq, Repr

/-- The produced output of one run, per format. -/
inductive Output where
  | asc (ev : EncodedValues)
  | gsb (ev : EncodedValues)
  | winter (nodes : List WinterNode)
deriving DecidableEq, Repr

/-- The only validation failure in the source: the non-empty
`grid_mismatch` report, on which the script prints the report and exits
before writing any output. -/
inductive RunError where
  | gridMismatch (entries : List MismatchEntry)
deriving DecidableEq, Repr

/-- Companion-grid validation as run by the script: performed only when
both deflection rasters are read (`read_dov`). -/
def validateGrids (inp : ConversionInput) : List MismatchEntry :=
  match inp.dov with
  | none => []
  | some (pm, pv) =>
      gridMismatch inp.primary.name pm.name pv.name
        inp.primary.gt.toList pm.gt.toList pv.gt.toList

/-- A band accessor that is never consulted (the script does not read the
companion bands when `read_dov` is false). -/
def noVals : ℕ → ℕ → FVal := fun _ _ => none

/-- The whole conversion run, as the script executes it: companion-grid
validation (exit on a non-empty mismatch report, before any output),
extent computation from the primary geotransform, then the selected
encoder. -/
def runConversion (cfg : Config) (fmt : OutputFormat) (inp : ConversionInput) :
    Except RunError Output :=
  let mm := validateGrids inp
  if mm ≠ [] then .error (.gridMismatch mm)
  else
    let ext := computeExtent inp.primary.gt inp.primary.W inp.primary.H
    let dov := inp.dov.isSome
    let vn := inp.primary.values
    let vpm := match inp.dov with | some (pm, _) => pm.values | none => noVals
    let vpv := match inp.dov with | some (_, pv) => pv.values | none => noVals
    match fmt with
    | .asc => .ok (.asc (ascEncode cfg ext inp.primary.W inp.primary.H dov vn vpm vpv))
    | .gsb => .ok (.gsb (gsbEncode cfg ext inp.primary.W inp.primary.H dov vn vpm vpv))
    | .winter => .ok (.winter (winterEncode cfg inp.primary.gt inp.primary.W inp.primary.H dov vn vpm vpv))

/-- The configuration values set in the source (lines 32-47); the GRS80
ellipsoid axes come from the external geodepy library. -/
def cfgDefault : Config :=
  { num_orec := 11
    num_srec := 11
    num_file := 1
    gs_type := "SECONDS "
    version := "1.0.0.0 "
    system_f := "GDA2020 "
    system_t := "AHD     "
    major_f := 6378137
    major_t := 6378137
    minor_f := 6356752314140356 / 1000000000
    minor_t := 6356752314140356 / 1000000000
    sub_name := "AUSGEOID"
    parent := "NONE    "
    created := "18062024"
    updated := "18062024"
    null_node_val := some (-999) }

/-- A 1 arc-second pixel geotransform with origin `(-147, -34)`: the
round-trip example raster of the specification. -/
def gtExample : GeoTransform :=
  { x_ul := -147
    x_int := 1 / 3600
    x_rot := 0
    y_ul := -34
    y_rot := 0
    y_int := -(1 / 3600) }

/-- The 2x2 example band `[[1, 2], [3, NaN]]`. -/
def vExample : ℕ → ℕ → FVal := fun y x =>
  if y = 0 ∧ x = 0 then some 1
  else if y = 0 ∧ x = 1 then some 2
  else if y = 1 ∧ x = 0 then some 3
  else none

/-- The extent of the example raster. -/
def extExample : GridExtent := computeExtent gtExample 2 2

/-- All four channels of an asc/gsb node record hold an actual (non-NaN)
float. -/
def nodeOk (r : NodeRec) : Bool :=
  r.n.isSome && r.pm.isSome && r.pv.isSome && r.fourth.isSome

/-- All three channels of a winter node hold an actual (non-NaN) float. -/
def winterNodeOk (r : WinterNode) : Bool :=
  r.n.isSome && r.pm.isSome && r.pv.isSome

/-- Every configured string field is unchanged by truncation to 8
characters, i.e. is at most 8 characters long. -/
abbrev strFieldsFit (cfg : Config) : Prop :=
  cfg.gs_type.take 8 = cfg.gs_type ∧ cfg.version.take 8 = cfg.version ∧
  cfg.system_f.take 8 = cfg.system_f ∧ cfg.system_t.take 8 = cfg.system_t ∧
  cfg.sub_name.take 8 = cfg.sub_name ∧ cfg.parent.take 8 = cfg.parent ∧
  cfg.created.take 8 = cfg.created ∧ cfg.updated.take 8 = cfg.updated

/-- The same geotransform with the two rotation components zeroed. -/
def zeroRot (g : GeoTransform) : GeoTransform := { g with x_rot := 0, y_rot := 0 }

/-- A configuration whose grid-spacing unit label is 9 characters long,
one more than its allotted 8-character field. -/
def cfgLong : Config := { cfgDefault with gs_type := "ABCDEFGHI" }

/-- The example geotransform with a non-zero x-rotation component. -/
def gtRot : GeoTransform := { gtExample with x_rot := 1 }

/-- A primary geotransform containing duplicate component values: the two
rotation components (indices 2 and 4) are both zero. -/
def gtDup : GeoTransform :=
  { x_ul := 130, x_int := 1/100, x_rot := 0, y_ul := -30, y_rot := 0, y_int := -(1/100) }

/-- `gtDup` with its y-rotation (tuple index 4) changed to 7, far beyond
the 1e-11 tolerance. -/
def gtDupBad : GeoTransform := { gtDup with y_rot := 7 }

/-- A conversion input whose prime-meridian deflection companion raster
disagrees with the primary at geotransform index 4 only. -/
def inpDup : ConversionInput :=
  { primary := ⟨"nval.tif", 1, 1, gtDup, fun _ _ => some 5⟩
    dov := some (⟨"dov_pm.tif", 1, 1, gtDupBad, fun _ _ => some 6⟩,
                 ⟨"dov_pv.tif", 1, 1, gtDup, fun _ _ => some 7⟩) }

/-! ## Helper lemmas -/

lemma absQ_nonneg (q : ℚ) : 0 ≤ absQ q := by
  unfold absQ; split <;> linarith

lemma roundHalfEven_nonneg (q : ℚ) (h : 0 ≤ q) : 0 ≤ roundHalfEven q := by
  have hf : (0 : ℤ) ≤ ⌊q⌋ := Int.le_floor.mpr (by exact_mod_cast h)
  unfold roundHalfEven
  split_ifs <;> omega

lemma pyround_nonneg (q : ℚ) (h : 0 ≤ q) : 0 ≤ pyround q := by
  unfold pyround
  exact_mod_cast roundHalfEven_nonneg q h

lemma pyroundAt_zero (p : ℕ) : pyroundAt 0 p = 0 := by
  have h0 : roundHalfEven 0 = 0 := by norm_num [roundHalfEven]
  simp [pyroundAt, h0]

lemma ten_zpow_neg_le_one (p : ℕ) : (10 : ℚ) ^ (-(p : ℤ)) ≤ 1 := by
  rw [zpow_neg, zpow_natCast]
  have h1 : (1 : ℚ) ≤ 10 ^ p := one_le_pow₀ (by norm_num)
  have h2 : (0 : ℚ) < 10 ^ p := by positivity
  rw [inv_le_one_iff₀]
  right; exact h1

lemma check_rounding_of_neg (a : DMSAngle) (p : ℕ)
    (h : ¬ absQ (pyroundAt a.second p - 60) < (10 : ℚ) ^ (-(p : ℤ))) :
    check_rounding a p = a := by
  unfold check_rounding
  rw [if_neg h]

lemma check_rounding_second (a : DMSAngle) (p : ℕ) :
    (check_rounding a p).second = 0 ∨ (check_rounding a p).second = a.second := by
  by_cases h : absQ (pyroundAt a.second p - 60) < (10 : ℚ) ^ (-(p : ℤ))
  · left
    unfold check_rounding
    rw [if_pos h]
    dsimp only
    split_ifs <;> rfl
  · right
    rw [check_rounding_of_neg a p h]

lemma check_nan_isSome (v s : FVal) (hs : s.isSome = true) :
    (check_nan v s).isSome = true := by
  cases v <;> simp [check_nan, isnan, hs]

/-! ## Claim theorems -/

/-- C4: for every DMS angle and precision `p`, when the seconds rounded to
`p` places are within `10^-p` of 60.0 (the source's strict comparison),
`check_rounding` zeroes the seconds and increments the minutes; a
resulting minute count of 60 or more is reduced by 60 with the degrees
incremented, and a resulting degree count of 360 or more is reduced
by 360.  An angle whose rounded seconds are not within `10^-p` of 60.0 is
left unchanged, and `(359, 59, 59.9996)` at precision 3 normalizes to
`(0, 0, 0.000)`. -/
theorem c4_angle_normalizer_carry (a : DMSAngle) (p : ℕ) :
    (absQ (pyroundAt a.second p - 60) < (10 : ℚ) ^ (-(p : ℤ)) →
      check_rounding a p =
        { positive := a.positive
          degree :=
            if 60 ≤ a.minute + 1 then
              (if 360 ≤ a.degree + 1 then a.degree + 1 - 360 else a.degree + 1)
            else a.degree
          minute := if 60 ≤ a.minute + 1 then a.minute + 1 - 60 else a.minute + 1
          second := 0 }) ∧
    (¬ absQ (pyroundAt a.second p - 60) < (10 : ℚ) ^ (-(p : ℤ)) →
      check_rounding a p = a) ∧
    check_rounding ⟨true, 359, 59, 149999/2500⟩ 3 = ⟨true, 0, 0, 0⟩ := by
  refine ⟨?_, check_rounding_of_neg a p, ?_⟩
  · intro h
    unfold check_rounding
    rw [if_pos h]
    dsimp only
    split_ifs <;> rfl
  · norm_num [check_rounding, pyroundAt, roundHalfEven, absQ, DMSAngle.mk.injEq]

/-- C4 witness: a concrete angle `(12, 59, 59.99998)` at precision 3
triggers the carry and normalizes to `(13, 0, 0)`. -/
theorem c4_witness :
    absQ (pyroundAt (2999999/50000 : ℚ) 3 - 60) < (10 : ℚ) ^ (-((3 : ℕ) : ℤ)) ∧
    check_rounding ⟨true, 12, 59, 2999999/50000⟩ 3 = ⟨true, 13, 0, 0⟩ := by
  have hc : absQ (pyroundAt ((⟨true, 12, 59, 2999999/50000⟩ : DMSAngle).second) 3 - 60) <
      (10 : ℚ) ^ (-((3 : ℕ) : ℤ)) := by
    norm_num [pyroundAt, roundHalfEven, absQ]
  have h := (c4_angle_normalizer_carry ⟨true, 12, 59, 2999999/50000⟩ 3).1 hc
  refine ⟨hc, ?_⟩
  rw [h]
  norm_num [DMSAngle.mk.injEq]

/-- C9: the angle normalizer is idempotent — applying `check_rounding` to
its own output (at the same precision) changes nothing. -/
theorem c9_check_rounding_idempotent (a : DMSAngle) (p : ℕ) :
    check_rounding (check_rounding a p) p = check_rounding a p := by
  by_cases h : absQ (pyroundAt a.second p - 60) < (10 : ℚ) ^ (-(p : ℤ))
  · have hsec : (check_rounding a p).second = 0 := by
      unfold check_rounding
      rw [if_pos h]
      dsimp only
      split_ifs <;> rfl
    apply check_rounding_of_neg
    rw [hsec, pyroundAt_zero]
    have h60 : absQ ((0 : ℚ) - 60) = 60 := by norm_num [absQ]
    rw [h60]
    push_neg
    calc (10 : ℚ) ^ (-(p : ℤ)) ≤ 1 := ten_zpow_neg_le_one p
      _ ≤ 60 := by norm_num
  · rw [check_rounding_of_neg a p h, check_rounding_of_neg a p h]

/-- C10: the two increments are the whole-arc-second roundings of the
pixel sizes under round-half-to-even (Python `round`): on a tie `n + 1/2`
the rounding picks the even neighbour, so an increment magnitude of
0.5 arc-seconds rounds to 0, 1.5 rounds to 2, and 112.5 rounds to 112
(half-up would give 113). -/
theorem c10_increment_half_even_rounding :
    (∀ n : ℤ, roundHalfEven ((n : ℚ) + 1/2) = if n % 2 = 0 then n else n + 1) ∧
    (∀ (g : GeoTransform) (W H : ℕ),
      (computeExtent g W H).lat_inc = pyround (absQ g.y_int * 3600) ∧
      (computeExtent g W H).lon_inc = pyround (g.x_int * 3600)) ∧
    (computeExtent ⟨0, 1/7200, 0, 0, 0, -(1/7200)⟩ 2 2).lat_inc = 0 ∧
    (computeExtent ⟨0, 1/7200, 0, 0, 0, -(1/7200)⟩ 2 2).lon_inc = 0 ∧
    (computeExtent ⟨0, 1/2400, 0, 0, 0, -(1/2400)⟩ 2 2).lat_inc = 2 ∧
    (computeExtent ⟨0, 1/2400, 0, 0, 0, -(1/2400)⟩ 2 2).lon_inc = 2 ∧
    (computeExtent ⟨0, 1/32, 0, 0, 0, -(1/32)⟩ 2 2).lat_inc = 112 ∧
    (computeExtent ⟨0, 1/32, 0, 0, 0, -(1/32)⟩ 2 2).lon_inc = 112 := by
  refine ⟨?_, fun g W H => ⟨rfl, rfl⟩, ?_, ?_, ?_, ?_, ?_, ?_⟩
  · intro n
    have hf : ⌊(n : ℚ) + 1/2⌋ = n := by
      rw [Int.floor_int_add]
      norm_num
    unfold roundHalfEven
    rw [hf]
    rw [if_neg (lt_irrefl ((n : ℚ) + 1/2)), if_neg (lt_irrefl ((n : ℚ) + 1/2))]
  · norm_num [computeExtent, pyround, roundHalfEven, absQ]
  · norm_num [computeExtent, pyround, roundHalfEven, absQ]
  · norm_num [computeExtent, pyround, roundHalfEven, absQ]
  · norm_num [computeExtent, pyround, roundHalfEven, absQ]
  · norm_num [computeExtent, pyround, roundHalfEven, absQ]
  · norm_num [computeExtent, pyround, roundHalfEven, absQ]

/-- C8: `check_nan` returns the sentinel exactly when the value is NaN and
passes every non-NaN value (including one equal to the sentinel) through
unchanged; consequently, with an actual (non-NaN) configured sentinel,
every channel of every node emitted by all three encoders holds an actual
float — no NaN is ever written. -/
theorem c8_sanitizer_no_nan_output (v s : FVal) (cfg : Config) (ext : GridExtent)
    (g : GeoTransform) (W H : ℕ) (dov : Bool) (vn vpm vpv : ℕ → ℕ → FVal)
    (hs : cfg.null_node_val.isSome = true) :
    (isnan v = true → check_nan v s = s) ∧
    (isnan v = false → check_nan v s = v) ∧
    (ascEncode cfg ext W H dov vn vpm vpv).nodes.all nodeOk = true ∧
    (gsbEncode cfg ext W H dov vn vpm vpv).nodes.all nodeOk = true ∧
    (winterEncode cfg g W H dov vn vpm vpv).all winterNodeOk = true := by
  refine ⟨fun h => by simp [check_nan, h], fun h => by simp [check_nan, h], ?_, ?_, ?_⟩
  · rw [List.all_eq_true]
    intro r hr
    obtain ⟨c, _, rfl⟩ := List.mem_map.mp hr
    cases dov <;>
      simp [ascNode, nodeOk, hs, check_nan_isSome _ _ hs]
  · rw [List.all_eq_true]
    intro r hr
    obtain ⟨c, _, rfl⟩ := List.mem_map.mp hr
    have hn : (if isnan (check_nan (vn c.1 c.2) cfg.null_node_val) then cfg.null_node_val
        else check_nan (vn c.1 c.2) cfg.null_node_val).isSome = true := by
      split_ifs
      · exact hs
      · exact check_nan_isSome _ _ hs
    cases dov <;>
      simp [gsbNode, nodeOk, hs, check_nan_isSome _ _ hs, hn]
  · rw [List.all_eq_true]
    intro r hr
    obtain ⟨c, _, rfl⟩ := List.mem_map.mp hr
    cases dov <;>
      simp [winterNode, winterNodeOk, hs, check_nan_isSome _ _ hs]

/-- C8 witness: with the default sentinel −999.0, a NaN sample maps to the
sentinel, a non-NaN value equal to the sentinel passes through unchanged,
and the example encodings contain no NaN channel. -/
theorem c8_witness :
    cfgDefault.null_node_val.isSome = true ∧
    check_nan none (some (-999)) = some (-999) ∧
    check_nan (some (-999)) (some (-999)) = some (-999) ∧
    (ascEncode cfgDefault extExample 2 2 false vExample noVals noVals).nodes.all nodeOk = true ∧
    (gsbEncode cfgDefault extExample 2 2 false vExample noVals noVals).nodes.all nodeOk = true ∧
    (winterEncode cfgDefault gtExample 2 2 false vExample noVals noVals).all winterNodeOk = true := by
  have h1 := c8_sanitizer_no_nan_output none (some (-999)) cfgDefault extExample
    gtExample 2 2 false vExample noVals noVals (by decide)
  have h2 := c8_sanitizer_no_nan_output (some (-999)) (some (-999)) cfgDefault extExample
    gtExample 2 2 false vExample noVals noVals (by decide)
  exact ⟨by decide, h1.1 (by decide), h2.2.1 (by decide), h1.2.2.1, h1.2.2.2.1, h1.2.2.2.2⟩

/-- C5 counterexample: for the rotation-free geotransform
`(0, -1, 0, 0.4, 0, -1)` with `W = 2`, `H = 1`, the computed extent has a
negative `lon_inc`, `north < south` and `east > west` — refuting the
claimed invariants for arbitrary rotation-free geotransforms. -/
theorem c5_counterexample :
    (computeExtent ⟨0, -1, 0, 2/5, 0, -1⟩ 2 1).lon_inc < 0 ∧
    (computeExtent ⟨0, -1, 0, 2/5, 0, -1⟩ 2 1).n_lat <
      (computeExtent ⟨0, -1, 0, 2/5, 0, -1⟩ 2 1).s_lat ∧
    (computeExtent ⟨0, -1, 0, 2/5, 0, -1⟩ 2 1).w_lon <
      (computeExtent ⟨0, -1, 0, 2/5, 0, -1⟩ 2 1).e_lon := by
  norm_num [computeExtent, pyround, roundHalfEven, absQ]

/-- C5 amended: `lat_inc` is always non-negative; when the pixel width
`dx` is non-negative, `lon_inc` is non-negative and `west ≥ east`; and
`north ≥ south` holds under the additional premise that the rounding loss
`(y0 − round(y0))·3600` (present in `north` only) is at most
`(H−1)·lat_inc`. -/
theorem c5_extent_invariants (g : GeoTransform) (W H : ℕ) (hW : 1 ≤ W)
    (hx : 0 ≤ g.x_int)
    (hy : (g.y_ul - pyround g.y_ul) * 3600 ≤ ((H : ℚ) - 1) * (computeExtent g W H).lat_inc) :
    0 ≤ (computeExtent g W H).lat_inc ∧ 0 ≤ (computeExtent g W H).lon_inc ∧
    (computeExtent g W H).s_lat ≤ (computeExtent g W H).n_lat ∧
    (computeExtent g W H).e_lon ≤ (computeExtent g W H).w_lon := by
  have hlat : 0 ≤ pyround (absQ g.y_int * 3600) :=
    pyround_nonneg _ (mul_nonneg (absQ_nonneg _) (by norm_num))
  have hlon : 0 ≤ pyround (g.x_int * 3600) :=
    pyround_nonneg _ (mul_nonneg hx (by norm_num))
  have hW1 : (1 : ℚ) ≤ (W : ℚ) := by exact_mod_cast hW
  simp only [computeExtent] at hy ⊢
  refine ⟨hlat, hlon, by nlinarith, ?_⟩
  have : 0 ≤ ((W : ℚ) - 1) * pyround (g.x_int * 3600) :=
    mul_nonneg (by linarith) hlon
  linarith

/-- C5 witness: the 1 arc-second example raster satisfies the premises and
the invariants. -/
theorem c5_witness :
    (1 ≤ 2) ∧ (0 ≤ gtExample.x_int) ∧
    ((gtExample.y_ul - pyround gtExample.y_ul) * 3600 ≤
      ((2 : ℚ) - 1) * (computeExtent gtExample 2 2).lat_inc) ∧
    (0 ≤ (computeExtent gtExample 2 2).lat_inc ∧
     0 ≤ (computeExtent gtExample 2 2).lon_inc ∧
     (computeExtent gtExample 2 2).s_lat ≤ (computeExtent gtExample 2 2).n_lat ∧
     (computeExtent gtExample 2 2).e_lon ≤ (computeExtent gtExample 2 2).w_lon) := by
  refine ⟨by norm_num, by norm_num [gtExample], ?_, ?_⟩
  · norm_num [gtExample, computeExtent, pyround, roundHalfEven, absQ]
  · exact c5_extent_invariants gtExample 2 2 (by norm_num) (by norm_num [gtExample])
      (by norm_num [gtExample, computeExtent, pyround, roundHalfEven, absQ])

lemma revRange_succ (k : ℕ) : revRange (k + 1) = k :: revRange k := by
  simp [revRange, List.range_succ]

lemma reverse_flatMap {α β : Type} (l : List α) (f : α → List β) :
    (l.flatMap f).reverse = l.reverse.flatMap fun x => (f x).reverse := by
  induction l with
  | nil => simp
  | cons a t ih => simp [List.flatMap_cons, List.reverse_append, List.flatMap_append, ih]

lemma ascGsbCells_eq_reverse (W H : ℕ) :
    ascGsbCells W H = (winterCells W H).reverse := by
  unfold ascGsbCells winterCells revRange
  rw [reverse_flatMap]
  exact congrArg _ (funext fun y => List.map_reverse _ _)

lemma winterCells_head (W H : ℕ) (hW : 1 ≤ W) (hH : 1 ≤ H) :
    (winterCells W H).head? = some (0, 0) := by
  cases W with
  | zero => omega
  | succ W' =>
    cases H with
    | zero => omega
    | succ H' => simp [winterCells, List.range_succ_eq_map, List.flatMap_cons]

lemma ascGsbCells_head (W H : ℕ) (hW : 1 ≤ W) (hH : 1 ≤ H) :
    (ascGsbCells W H).head? = some (H - 1, W - 1) := by
  cases W with
  | zero => omega
  | succ W' =>
    cases H with
    | zero => omega
    | succ H' => simp [ascGsbCells, revRange_succ, List.flatMap_cons]

lemma winterCells_succ (W H : ℕ) :
    winterCells W (H + 1) = winterCells W H ++ (List.range W).map (fun x => (H, x)) := by
  unfold winterCells
  rw [List.range_succ, List.flatMap_append]
  simp [List.flatMap_cons]

lemma winterCells_length (W H : ℕ) : (winterCells W H).length = H * W := by
  induction H with
  | zero => simp [winterCells]
  | succ H' ih =>
    rw [winterCells_succ]
    simp [ih, Nat.succ_mul]

lemma winterCells_getElem (W H y x : ℕ) (hy : y < H) (hx : x < W) :
    (winterCells W H)[y * W + x]? = some (y, x) := by
  induction H with
  | zero => omega
  | succ H' ih =>
    rw [winterCells_succ]
    by_cases h : y < H'
    · have h1 : y * W + x < (y + 1) * W := by rw [Nat.succ_mul]; omega
      have h2 : (y + 1) * W ≤ H' * W := Nat.mul_le_mul_right W (by omega)
      rw [List.getElem?_append]
      rw [if_pos (by rw [winterCells_length]; omega)]
      exact ih h
    · have hy' : y = H' := by omega
      subst hy'
      have hlen : (winterCells W y).length = y * W := winterCells_length W y
      rw [List.getElem?_append_right (by rw [hlen]; omega)]
      rw [hlen]
      have hsub : y * W + x - y * W = x := by omega
      rw [hsub, List.getElem?_map, List.getElem?_range hx]
      rfl

/-- C6: for every non-empty raster, the winter encoder's first node is the
one for raster cell `(0, 0)` and its nodes follow the cells in row-major
first-to-last order, while the asc and gsb encoders' first node is the one
for cell `(H−1, W−1)` and their cell order is exactly the reverse of the
winter (row-major) order — rows last-to-first, columns last-to-first. -/
theorem c6_traversal_orders (cfg : Config) (ext : GridExtent) (g : GeoTransform)
    (W H : ℕ) (dov : Bool) (vn vpm vpv : ℕ → ℕ → FVal)
    (hW : 1 ≤ W) (hH : 1 ≤ H) :
    (winterEncode cfg g W H dov vn vpm vpv).head? =
      some (winterNode cfg g dov vn vpm vpv 0 0) ∧
    (ascEncode cfg ext W H dov vn vpm vpv).nodes.head? =
      some (ascNode cfg dov vn vpm vpv (H - 1) (W - 1)) ∧
    (gsbEncode cfg ext W H dov vn vpm vpv).nodes.head? =
      some (gsbNode cfg dov vn vpm vpv (H - 1) (W - 1)) ∧
    ascGsbCells W H = (winterCells W H).reverse ∧
    (∀ y x : ℕ, y < H → x < W → (winterCells W H)[y * W + x]? = some (y, x)) := by
  refine ⟨?_, ?_, ?_, ascGsbCells_eq_reverse W H,
    fun y x hy hx => winterCells_getElem W H y x hy hx⟩
  · show ((winterCells W H).map _).head? = _
    rw [List.head?_map, winterCells_head W H hW hH]
    rfl
  · show ((ascGsbCells W H).map _).head? = _
    rw [List.head?_map, ascGsbCells_head W H hW hH]
    rfl
  · show ((ascGsbCells W H).map _).head? = _
    rw [List.head?_map, ascGsbCells_head W H hW hH]
    rfl

/-- C6 witness: for the 3×2 raster the winter encoder starts at cell
`(0, 0)`, the asc and gsb encoders start at cell `(1, 2)`, the asc/gsb
cell order is the reverse of the winter order, and row-major indexing
holds at cell `(1, 2)`. -/
theorem c6_witness :
    (1 ≤ 3) ∧ (1 ≤ 2) ∧
    (winterEncode cfgDefault gtExample 3 2 false vExample noVals noVals).head? =
      some (winterNode cfgDefault gtExample false vExample noVals noVals 0 0) ∧
    (ascEncode cfgDefault extExample 3 2 false vExample noVals noVals).nodes.head? =
      some (ascNode cfgDefault false vExample noVals noVals 1 2) ∧
    (gsbEncode cfgDefault extExample 3 2 false vExample noVals noVals).nodes.head? =
      some (gsbNode cfgDefault false vExample noVals noVals 1 2) ∧
    ascGsbCells 3 2 = (winterCells 3 2).reverse ∧
    (winterCells 3 2)[1 * 3 + 2]? = some (1, 2) := by
  have h := c6_traversal_orders cfgDefault extExample gtExample 3 2 false
    vExample noVals noVals (by norm_num) (by norm_num)
  exact ⟨by norm_num, by norm_num, h.1, h.2.1, h.2.2.1, h.2.2.2.1,
    h.2.2.2.2 1 2 (by norm_num) (by norm_num)⟩

/-- C1: the companion-grid validation probes each companion at the index
of the *first occurrence of the primary component's value* (Python
`list.index`).  With the duplicate zero rotation components, a companion
whose index-4 component differs by 7 (far beyond 1e-11) produces an empty
mismatch report and the run proceeds to write output; with all-distinct
components the check does detect and correctly name a mismatching index. -/
theorem c1_mismatch_index_slip :
    gridMismatch "nval.tif" "dov_pm.tif" "dov_pv.tif"
      gtDup.toList gtDupBad.toList gtDup.toList = [] ∧
    absQ (pyGet gtDup.toList 4 - pyGet gtDupBad.toList 4) > matchPrecision ∧
    (runConversion cfgDefault OutputFormat.gsb inpDup).toOption.isSome = true ∧
    gridMismatch "nval.tif" "dov_pm.tif" "dov_pv.tif"
      [1, 2, 3, 4, 5, 6] [1, 2, 3, 4, 50, 6] [1, 2, 3, 4, 5, 6] =
      [⟨"nval.tif", "dov_pm.tif", 4, 5, 50⟩] := by
  refine ⟨?_, ?_, ?_, ?_⟩
  · norm_num [gridMismatch, gtDup, gtDupBad, GeoTransform.toList, pyIndex, pyGet,
      absQ, matchPrecision]
  · norm_num [gtDup, gtDupBad, GeoTransform.toList, pyGet, absQ, matchPrecision]
  · norm_num [runConversion, validateGrids, inpDup, gridMismatch, gtDup, gtDupBad,
      GeoTransform.toList, pyIndex, pyGet, absQ, matchPrecision,
      Except.toOption, Option.isSome]
  · norm_num [gridMismatch, pyIndex, pyGet, absQ, matchPrecision]

/-- C2 counterexample: with a 9-character grid-spacing unit label, the gsb
encoder emits the silently truncated 8-character value (and the asc
encoder emits the over-width value in full); no failure occurs. -/
theorem c2_counterexample :
    8 < cfgLong.gs_type.length ∧
    (gsbEncode cfgLong extExample 2 2 false vExample noVals noVals).overview[3]? =
      some ("GS_TYPE ", HVal.str "ABCDEFGH") ∧
    HVal.str "ABCDEFGH" ≠ HVal.str cfgLong.gs_type ∧
    (ascEncode cfgLong extExample 2 2 false vExample noVals noVals).overview[3]? =
      some ("GS_TYPE ", HVal.str "ABCDEFGHI") := by
  refine ⟨by decide, by decide, by decide, by decide⟩

/-- C2 amended: no encoder validates field widths or fails on an
over-width field — the gsb encoder always packs the first 8 characters of
each string field (a silent truncation when the field is longer), while
the asc encoder always emits the configured string unmodified. -/
theorem c2_no_width_validation (cfg : Config) (ext : GridExtent) (W H : ℕ)
    (dov : Bool) (vn vpm vpv : ℕ → ℕ → FVal) :
    (gsbEncode cfg ext W H dov vn vpm vpv).overview[3]? =
      some ("GS_TYPE ", HVal.str (cfg.gs_type.take 8)) ∧
    (ascEncode cfg ext W H dov vn vpm vpv).overview[3]? =
      some ("GS_TYPE ", HVal.str cfg.gs_type) ∧
    (gsbEncode cfg ext W H dov vn vpm vpv).subgrid[0]? =
      some ("SUB_NAME", HVal.str (cfg.sub_name.take 8)) ∧
    (ascEncode cfg ext W H dov vn vpm vpv).subgrid[0]? =
      some ("SUB_NAME", HVal.str cfg.sub_name) := by
  exact ⟨rfl, rfl, rfl, rfl⟩

/-- C3 counterexample: a raster whose geotransform has x-rotation 1
converts successfully — the run produces a gsb output rather than failing
with any unsupported-geometry error. -/
theorem c3_counterexample :
    gtRot.x_rot = 1 ∧
    runConversion cfgDefault OutputFormat.gsb ⟨⟨"n.tif", 2, 2, gtRot, vExample⟩, none⟩ =
      Except.ok (Output.gsb
        (gsbEncode cfgDefault (computeExtent gtRot 2 2) 2 2 false vExample noVals noVals)) := by
  exact ⟨rfl, rfl⟩

/-- C3 amended: the rotation components of the geotransform are never
inspected — with no companion grids a run never fails, its output is
unchanged when the rotations are zeroed, and the extent computation is
invariant under the rotation components. -/
theorem c3_rotation_ignored (cfg : Config) (fmt : OutputFormat) (prim : RasterInput) :
    validateGrids ⟨prim, none⟩ = [] ∧
    computeExtent prim.gt prim.W prim.H =
      computeExtent (zeroRot prim.gt) prim.W prim.H ∧
    runConversion cfg fmt ⟨prim, none⟩ =
      runConversion cfg fmt ⟨{ prim with gt := zeroRot prim.gt }, none⟩ ∧
    ∃ o, runConversion cfg fmt ⟨prim, none⟩ = Except.ok o := by
  refine ⟨rfl, rfl, ?_, ?_⟩
  · cases fmt <;> rfl
  · cases fmt <;> exact ⟨_, rfl⟩

lemma ascNode_eq_gsbNode (cfg : Config) (dov : Bool)
    (vn vpm vpv : ℕ → ℕ → FVal) (y x : ℕ) :
    ascNode cfg dov vn vpm vpv y x = gsbNode cfg dov vn vpm vpv y x := by
  unfold ascNode gsbNode
  cases hv : vn y x <;> cases dov <;> simp [check_nan, isnan, ite_self]

/-- C7 counterexample: with a 9-character grid-spacing unit label the two
encoders disagree on the GS_TYPE header field value — the gsb encoder
truncates it to 8 characters while the asc encoder keeps all 9. -/
theorem c7_counterexample :
    (ascEncode cfgLong extExample 2 2 false vExample noVals noVals).overview ≠
      (gsbEncode cfgLong extExample 2 2 false vExample noVals noVals).overview := by
  exact ne_of_apply_ne (fun l => l[3]?) (by decide)

/-- C7 amended: provided every configured string field is at most
8 characters long (unchanged by truncation to 8), the asc and gsb encoders
emit exactly the same header field values and the same four channel values
node for node in the same order. -/
theorem c7_asc_gsb_agree (cfg : Config) (ext : GridExtent) (W H : ℕ)
    (dov : Bool) (vn vpm vpv : ℕ → ℕ → FVal) (h : strFieldsFit cfg) :
    ascEncode cfg ext W H dov vn vpm vpv = gsbEncode cfg ext W H dov vn vpm vpv := by
  obtain ⟨h1, h2, h3, h4, h5, h6, h7, h8⟩ := h
  unfold ascEncode gsbEncode
  rw [h1, h2, h3, h4, h5, h6, h7, h8]
  have hn : (fun c : ℕ × ℕ => ascNode cfg dov vn vpm vpv c.1 c.2) =
      (fun c : ℕ × ℕ => gsbNode cfg dov vn vpm vpv c.1 c.2) :=
    funext fun c => ascNode_eq_gsbNode cfg dov vn vpm vpv c.1 c.2
  rw [hn]

/-- C7 witness: the default configuration's string fields all fit in
8 characters, and on the example raster the asc and gsb encoders produce
identical field values. -/
theorem c7_witness :
    strFieldsFit cfgDefault ∧
    ascEncode cfgDefault extExample 2 2 false vExample noVals noVals =
      gsbEncode cfgDefault extExample 2 2 false vExample noVals noVals := by
  refine ⟨by decide, c7_asc_gsb_agree cfgDefault extExample 2 2 false
    vExample noVals noVals (by decide)⟩

end GeoTiff
